import Mathlib

/-
Verification of the marker/pose model of the morphing_birds repository
(src/morphing_birds/Animal3D.py and src/morphing_birds/SkeletonDefinition.py).

The Python code is shallowly embedded as follows.

Coordinates are modelled over an arbitrary commutative ring (instantiated at
the integers for concrete runs and at the reals for the trigonometric claim),
standing in for numpy floating-point values.

A numpy (frames, markers, 3) array is a list of frames, each a list of
coordinate triples.  User input to update_keypoints may be a 2-D or a 3-D
array; this is the KParr type, whose innermost lists have arbitrary length so
that the trailing-dimension check of validate_keypoints is representable.
Genuine numpy arrays are rectangular; raggedness-related fallbacks in the
embedding are unreachable for them.

Python object identity (which numpy buffer a field points to) is modelled
separately by RefState, a heap of buffers addressed by natural numbers;
assignment of one field to another copies the address, while ndarray.copy()
allocates a fresh cell.  This model decides the aliasing claim about
reset_transformation / restore_keypoints_to_average.
-/

namespace MorphingBirds

/-- A 3-D coordinate triple, one row of a numpy (…, 3) array. -/
abbrev P3 (α : Type) := α × α × α

/-- A 4 x 4 homogeneous transformation matrix, row major, as stored in
Animal3D.transformation_matrix. -/
structure Mat4 (α : Type) where
  a00 : α
  a01 : α
  a02 : α
  a03 : α
  a10 : α
  a11 : α
  a12 : α
  a13 : α
  a20 : α
  a21 : α
  a22 : α
  a23 : α
  a30 : α
  a31 : α
  a32 : α
  a33 : α
deriving DecidableEq

/-- Row-by-column matrix product, the meaning of the numpy expression
`self.transformation_matrix @ rotation_matrix`. -/
def Mat4.mul [Mul α] [Add α] (M N : Mat4 α) : Mat4 α where
  a00 := M.a00 * N.a00 + M.a01 * N.a10 + M.a02 * N.a20 + M.a03 * N.a30
  a01 := M.a00 * N.a01 + M.a01 * N.a11 + M.a02 * N.a21 + M.a03 * N.a31
  a02 := M.a00 * N.a02 + M.a01 * N.a12 + M.a02 * N.a22 + M.a03 * N.a32
  a03 := M.a00 * N.a03 + M.a01 * N.a13 + M.a02 * N.a23 + M.a03 * N.a33
  a10 := M.a10 * N.a00 + M.a11 * N.a10 + M.a12 * N.a20 + M.a13 * N.a30
  a11 := M.a10 * N.a01 + M.a11 * N.a11 + M.a12 * N.a21 + M.a13 * N.a31
  a12 := M.a10 * N.a02 + M.a11 * N.a12 + M.a12 * N.a22 + M.a13 * N.a32
  a13 := M.a10 * N.a03 + M.a11 * N.a13 + M.a12 * N.a23 + M.a13 * N.a33
  a20 := M.a20 * N.a00 + M.a21 * N.a10 + M.a22 * N.a20 + M.a23 * N.a30
  a21 := M.a20 * N.a01 + M.a21 * N.a11 + M.a22 * N.a21 + M.a23 * N.a31
  a22 := M.a20 * N.a02 + M.a21 * N.a12 + M.a22 * N.a22 + M.a23 * N.a32
  a23 := M.a20 * N.a03 + M.a21 * N.a13 + M.a22 * N.a23 + M.a23 * N.a33
  a30 := M.a30 * N.a00 + M.a31 * N.a10 + M.a32 * N.a20 + M.a33 * N.a30
  a31 := M.a30 * N.a01 + M.a31 * N.a11 + M.a32 * N.a21 + M.a33 * N.a31
  a32 := M.a30 * N.a02 + M.a31 * N.a12 + M.a32 * N.a22 + M.a33 * N.a32
  a33 := M.a30 * N.a03 + M.a31 * N.a13 + M.a32 * N.a23 + M.a33 * N.a33

/-- The 4 x 4 identity matrix, np.identity(4) / np.eye(4). -/
def id4 [Zero α] [One α] : Mat4 α :=
  ⟨1, 0, 0, 0, 0, 1, 0, 0, 0, 0, 1, 0, 0, 0, 0, 1⟩

/-- The translation matrix built by Animal3D.update_translation: it offsets
only the second and third coordinate axes. -/
def translationM [Zero α] [One α] (horzDist vertDist : α) : Mat4 α :=
  ⟨1, 0, 0, 0,
   0, 1, 0, horzDist,
   0, 0, 1, vertDist,
   0, 0, 0, 1⟩

/-- Degrees to radians, np.deg2rad. -/
noncomputable def deg2rad (degrees : ℝ) : ℝ := degrees * Real.pi / 180

/-- Rotation about the x axis, the `which == "x"` branch of
Animal3D.update_rotation (argument already in radians). -/
noncomputable def rotXM (r : ℝ) : Mat4 ℝ :=
  ⟨1, 0, 0, 0,
   0, Real.cos r, -Real.sin r, 0,
   0, Real.sin r, Real.cos r, 0,
   0, 0, 0, 1⟩

/-- Rotation about the y axis, the `which == "y"` branch of
Animal3D.update_rotation. -/
noncomputable def rotYM (r : ℝ) : Mat4 ℝ :=
  ⟨Real.cos r, 0, Real.sin r, 0,
   0, 1, 0, 0,
   -Real.sin r, 0, Real.cos r, 0,
   0, 0, 0, 1⟩

/-- Rotation about the z axis, the `which == "z"` branch of
Animal3D.update_rotation. -/
noncomputable def rotZM (r : ℝ) : Mat4 ℝ :=
  ⟨Real.cos r, -Real.sin r, 0, 0,
   Real.sin r, Real.cos r, 0, 0,
   0, 0, 1, 0,
   0, 0, 0, 1⟩

/-- The rotation axis selector, the `which` string parameter of
Animal3D.update_rotation restricted to its three recognised values. -/
inductive Axis where
  | x
  | y
  | z
deriving DecidableEq

/-- Axis dispatch of Animal3D.update_rotation. -/
noncomputable def rotMat : Axis → ℝ → Mat4 ℝ
  | Axis.x => rotXM
  | Axis.y => rotYM
  | Axis.z => rotZM

/-- Application of the accumulated matrix to one keypoint row, as done by
Animal3D.apply_transformation: the row is extended with a homogeneous 1,
multiplied by the transpose of the matrix (row vector times M transpose is
component i = sum over j of M i j times homog j), and truncated back to
three components. -/
def applyPoint [Mul α] [Add α] (M : Mat4 α) (p : P3 α) : P3 α :=
  (M.a00 * p.1 + M.a01 * p.2.1 + M.a02 * p.2.2 + M.a03,
   M.a10 * p.1 + M.a11 * p.2.1 + M.a12 * p.2.2 + M.a13,
   M.a20 * p.1 + M.a21 * p.2.1 + M.a22 * p.2.2 + M.a23)

/-- Value-level state of an Animal3D instance: the three shape buffers, the
accumulated transformation matrix, the origin vector and the resolved
moving-marker indices.  Shapes are (frames, markers, 3) arrays. -/
structure AnimalState (α : Type) where
  current_shape : List (List (P3 α))
  untransformed_shape : List (List (P3 α))
  default_shape : List (List (P3 α))
  transformation_matrix : Mat4 α
  origin : P3 α
  marker_index : List Nat
deriving DecidableEq

/-- Animal3D.restore_keypoints_to_average: current and untransformed shapes
become (copies of) the default shape, the origin is zeroed; the
transformation matrix is left untouched. -/
def restoreKeypointsToAverage [Zero α] (s : AnimalState α) : AnimalState α :=
  { s with
    current_shape := s.default_shape
    untransformed_shape := s.default_shape
    origin := ((0 : α), (0 : α), (0 : α)) }

/-- Animal3D.reset_transformation: matrix back to the identity, current shape
rebound to the untransformed shape, origin zeroed. -/
def resetTransformation [Zero α] [One α] (s : AnimalState α) : AnimalState α :=
  { s with
    transformation_matrix := id4
    current_shape := s.untransformed_shape
    origin := ((0 : α), (0 : α), (0 : α)) }

/-- Animal3D.update_translation: right-multiplies the translation matrix into
the accumulated matrix and adds (0, horzDist, vertDist) to the origin. -/
def updateTranslation [Zero α] [One α] [Mul α] [Add α]
    (s : AnimalState α) (horzDist vertDist : α) : AnimalState α :=
  { s with
    transformation_matrix := s.transformation_matrix.mul (translationM horzDist vertDist)
    origin := (s.origin.1 + 0, s.origin.2.1 + horzDist, s.origin.2.2 + vertDist) }

/-- Animal3D.update_rotation: right-multiplies the axis rotation matrix (of
the angle converted to radians) into the accumulated matrix. -/
noncomputable def updateRotation (s : AnimalState ℝ) (degrees : ℝ) (axis : Axis) :
    AnimalState ℝ :=
  { s with
    transformation_matrix := s.transformation_matrix.mul (rotMat axis (deg2rad degrees)) }

/-- Animal3D.apply_transformation: every keypoint row of the current shape is
replaced by its image under the accumulated matrix.  (The Python code reshapes
the single-frame buffer to rows, appends homogeneous ones and multiplies by
the transposed matrix; per row this is exactly applyPoint.) -/
def applyTransformation [Mul α] [Add α] (s : AnimalState α) : AnimalState α :=
  { s with
    current_shape :=
      s.current_shape.map (fun frame => frame.map (applyPoint s.transformation_matrix)) }

/-- Animal3D.transform_keypoints: the fixed episode
reset; translate(horzDist, vertDist); rotate(bodypitch, x); rotate(yaw, z);
apply. -/
noncomputable def transformKeypoints (s : AnimalState ℝ)
    (bodypitch horzDist vertDist yaw : ℝ) : AnimalState ℝ :=
  applyTransformation
    (updateRotation
      (updateRotation
        (updateTranslation (resetTransformation s) horzDist vertDist)
        bodypitch Axis.x)
      yaw Axis.z)

/-- A user-supplied keypoints array: numpy 2-D (markers, k) or 3-D
(frames, markers, k) data.  The innermost length k is the trailing dimension
checked by validate_keypoints. -/
inductive KParr (α : Type) where
  | two (rows : List (List α))
  | three (frames : List (List (List α)))
deriving DecidableEq

/-- numpy .size: the total number of scalar elements. -/
def kpSize : KParr α → Nat
  | KParr.two rows => (rows.map List.length).sum
  | KParr.three frames => (frames.map (fun f => (f.map List.length).sum)).sum

/-- numpy .shape[-1] for a (rectangular) array: the length of the first
innermost row (0 when the array is empty). -/
def kpLastDim : KParr α → Nat
  | KParr.two rows => (rows.headD []).length
  | KParr.three frames => ((frames.headD []).headD []).length

/-- Reads one length-3 row as a coordinate triple. -/
def toTriple : List α → Option (P3 α)
  | [x, y, z] => some (x, y, z)
  | _ => none

/-- Animal3D.validate_keypoints: fails when the array is empty, fails when
the trailing dimension is not 3, reshapes a 2-D (n, 3) array to (1, n, 3),
and otherwise returns the input unchanged.  (It performs no mirroring and no
marker-count check.)  The ragged-array branch is unreachable for genuine
rectangular numpy input with trailing dimension 3. -/
def validateKeypoints (k : KParr α) : Except String (List (List (P3 α))) :=
  if kpSize k = 0 then Except.error "No keypoints provided."
  else if kpLastDim k ≠ 3 then Except.error "Keypoints must be in 3D space."
  else
    match k with
    | KParr.two rows =>
      match rows.mapM toTriple with
      | some ps => Except.ok [ps]
      | none => Except.error "ragged array"
    | KParr.three frames =>
      match frames.mapM (fun f => f.mapM toTriple) with
      | some fs => Except.ok fs
      | none => Except.error "ragged array"

/-- Sequential elementwise writes of src points to the listed positions of a
frame, the per-frame effect of the fancy-indexing assignment
`current_shape[:, marker_index, :] = validated`. -/
def writeFrame (frame : List (P3 α)) : List (Nat × P3 α) → List (P3 α)
  | [] => frame
  | (i, p) :: rest => writeFrame (frame.set i p) rest

/-- The numpy fancy-indexing assignment `cur[:, idx, :] = src` with its
broadcasting rule: the source frame count must equal the destination frame
count or be 1, and the source marker count must equal the index count or be
1; otherwise numpy raises a broadcast ValueError before writing anything. -/
def scatterAssign [Zero α] (cur : List (List (P3 α))) (idx : List Nat)
    (src : List (List (P3 α))) : Except String (List (List (P3 α))) :=
  if src.length = cur.length ∨ src.length = 1 then
    if (src.headD []).length = idx.length ∨ (src.headD []).length = 1 then
      Except.ok (cur.enum.map (fun af =>
        let srcFrame := if src.length = 1 then src.headD [] else src.getD af.1 []
        let row := if (src.headD []).length = 1 then
            List.replicate idx.length (srcFrame.headD ((0 : α), (0 : α), (0 : α)))
          else srcFrame
        writeFrame af.2 (idx.zip row)))
    else Except.error "could not broadcast input array (marker axis)"
  else Except.error "could not broadcast input array (frame axis)"

/-- Animal3D.update_keypoints: with no input delegates to
restore_keypoints_to_average; otherwise validates, scatters the validated
points into the current shape at the moving-marker indices, snapshots the
result as the untransformed shape, and applies the accumulated
transformation.  An error models the Python exception propagating out. -/
def updateKeypoints [Zero α] [Mul α] [Add α] (user : Option (KParr α))
    (s : AnimalState α) : Except String (AnimalState α) :=
  match user with
  | none => Except.ok (restoreKeypointsToAverage s)
  | some kps =>
    match validateKeypoints kps with
    | Except.error e => Except.error e
    | Except.ok validated =>
      match scatterAssign s.current_shape s.marker_index validated with
      | Except.error e => Except.error e
      | Except.ok cur2 =>
        Except.ok (applyTransformation
          { s with current_shape := cur2, untransformed_shape := cur2 })

/-- The observable state after a call to update_keypoints: on an exception the
object is left exactly as it was, because validation and the broadcast check
both run (and can only fail) strictly before any buffer is written. -/
def updateKeypointsRun [Zero α] [Mul α] [Add α] (user : Option (KParr α))
    (s : AnimalState α) : AnimalState α :=
  match updateKeypoints user s with
  | Except.ok t => t
  | Except.error _ => s

/-- Negation of the first coordinate, the `mirrored[:, :, 0] *= -1` step of
Animal3D.mirror_keypoints. -/
def negFirst [Neg α] (p : P3 α) : P3 α := (-p.1, p.2.1, p.2.2)

/-- One frame of Animal3D.mirror_keypoints: the output has the mirrored copy
of point i at position 2i (the even stride 0::2) and the original point i at
position 2i+1 (the odd stride 1::2), i.e. the pairwise interleaving. -/
def mirrorFrame [Neg α] (frame : List (P3 α)) : List (P3 α) :=
  frame.flatMap (fun p => [negFirst p, p])

/-- Animal3D.mirror_keypoints on a (frames, n, 3) array: every frame is
interleaved as mirrored, original, mirrored, original, … giving (frames, 2n, 3). -/
def mirrorKeypoints [Neg α] (kps : List (List (P3 α))) : List (List (P3 α)) :=
  kps.map mirrorFrame

/-- The message of the ValueError raised by
SkeletonDefinition.get_marker_indices for a missing marker (quotation marks
around the name elided). -/
def markerNotFoundMsg (name : String) : String :=
  "Marker " ++ name ++ " not found in CSV marker names."

/-- SkeletonDefinition.get_marker_indices: walks the requested subset in
order, appending the position (first occurrence) of each name in the CSV
column-name list, and raises naming the first absent marker. -/
def getMarkerIndices (markerSubset csvMarkerNames : List String) :
    Except String (List Nat) :=
  match markerSubset with
  | [] => Except.ok []
  | name :: rest =>
    if name ∈ csvMarkerNames then
      match getMarkerIndices rest csvMarkerNames with
      | Except.ok idxs => Except.ok (csvMarkerNames.indexOf name :: idxs)
      | Except.error e => Except.error e
    else Except.error (markerNotFoundMsg name)

/-- Reference-semantics state of an Animal3D instance: the three shape fields
hold heap addresses of numpy buffers.  Plain Python assignment copies the
address; ndarray.copy() appends a fresh cell to the heap. -/
structure RefState (α : Type) where
  heap : List (List (List (P3 α)))
  cur : Nat
  untr : Nat
  dflt : Nat
  transformation_matrix : Mat4 α
  origin : P3 α
deriving DecidableEq

/-- The buffer contents a field currently refers to. -/
def readBuf (s : RefState α) (r : Nat) : List (List (P3 α)) := s.heap.getD r []

/-- Animal3D.reset_transformation under reference semantics:
`self.current_shape = self.untransformed_shape` copies the address (no new
buffer is allocated), the matrix is reset and the origin zeroed. -/
def resetTransformationR [Zero α] [One α] (s : RefState α) : RefState α :=
  { s with
    transformation_matrix := id4
    cur := s.untr
    origin := ((0 : α), (0 : α), (0 : α)) }

/-- Animal3D.restore_keypoints_to_average under reference semantics:
`self.current_shape = self.default_shape.copy()` allocates one fresh buffer
and `self.untransformed_shape = self.current_shape.copy()` a second one. -/
def restoreKeypointsToAverageR [Zero α] (s : RefState α) : RefState α :=
  { s with
    heap := (s.heap ++ [s.heap.getD s.dflt []]) ++ [s.heap.getD s.dflt []]
    cur := s.heap.length
    untr := (s.heap ++ [s.heap.getD s.dflt []]).length
    origin := ((0 : α), (0 : α), (0 : α)) }

/-- An in-place mutation of the buffer the current shape refers to (for
example the fancy-indexing scatter write of update_keypoints, or any
`arr[...] = value` by a caller holding the working pose). -/
def writeCur (v : List (List (P3 α))) (s : RefState α) : RefState α :=
  { s with heap := s.heap.set s.cur v }

/-- The Animal3D.markers property: the canonical gathered view
`current_shape[:, marker_index, :]`, one gathered row per moving marker, in
marker-name order. -/
def markersView [Zero α] (s : AnimalState α) : List (List (P3 α)) :=
  s.current_shape.map
    (fun frame => s.marker_index.map (fun i => frame.getD i ((0 : α), (0 : α), (0 : α))))

/-- One keypoint triple as a raw coordinate row. -/
def toRow (p : P3 α) : List α := [p.1, p.2.1, p.2.2]

/-- The numpy (frames, markers, 3) array holding the given triples. -/
def toArr3 (frames : List (List (P3 α))) : KParr α :=
  KParr.three (frames.map (fun f => f.map toRow))

/-- The two-marker scenario of the specification: column order [R, L], marker
names [L, R], so the resolved moving-marker indices are [1, 0]; the default
pose holds L = (-2,0,0) at column 1 and R = (2,0,0) at column 0; no
transformation accumulated. -/
def stateLR : AnimalState ℤ :=
  { current_shape := [[(2, 0, 0), (-2, 0, 0)]]
    untransformed_shape := [[(2, 0, 0), (-2, 0, 0)]]
    default_shape := [[(2, 0, 0), (-2, 0, 0)]]
    transformation_matrix := id4
    origin := (0, 0, 0)
    marker_index := [1, 0] }

/-- A loaded two-marker state in column order (single-frame working pose,
moving-marker indices [0, 1], identity transform). -/
def stateTwoMarkers : AnimalState ℤ :=
  { current_shape := [[(0, 0, 0), (0, 0, 0)]]
    untransformed_shape := [[(0, 0, 0), (0, 0, 0)]]
    default_shape := [[(0, 0, 0), (0, 0, 0)]]
    transformation_matrix := id4
    origin := (0, 0, 0)
    marker_index := [0, 1] }

/-- A two-frame, two-marker, trailing-dimension-3 user input. -/
def twoFrameInput : KParr ℤ :=
  KParr.three [[[1, 2, 3], [4, 5, 6]], [[7, 8, 9], [10, 11, 12]]]

/-- A non-identity accumulated matrix (a translation of 5 along the second
axis, as left behind by update_translation). -/
def staleM : Mat4 ℤ :=
  ⟨1, 0, 0, 0, 0, 1, 0, 5, 0, 0, 1, 0, 0, 0, 0, 1⟩

/-- A one-marker state carrying the stale non-identity matrix staleM. -/
def stateStale : AnimalState ℤ :=
  { current_shape := [[(1, 2, 3)]]
    untransformed_shape := [[(1, 2, 3)]]
    default_shape := [[(1, 2, 3)]]
    transformation_matrix := staleM
    origin := (0, 0, 0)
    marker_index := [0] }

/-- A reference-semantics state whose three shape fields point at three
distinct heap buffers A, B, C. -/
def refStateABC : RefState ℤ :=
  { heap := [[[(1, 1, 1)]], [[(2, 2, 2)]], [[(3, 3, 3)]]]
    cur := 0
    untr := 1
    dflt := 2
    transformation_matrix := id4
    origin := (0, 0, 0) }

/-- A single-frame, single-point state with the point (1,0,0), for the
rotation sign-convention scenario. -/
noncomputable def stateUnitX : AnimalState ℝ :=
  { current_shape := [[(1, 0, 0)]]
    untransformed_shape := [[(1, 0, 0)]]
    default_shape := [[(1, 0, 0)]]
    transformation_matrix := id4
    origin := (0, 0, 0)
    marker_index := [0] }

/-- Reading back the element just written by List.set. -/
theorem getD_set_self {β : Type} (l : List β) (i : Nat) (v d : β) (h : i < l.length) :
    (l.set i v).getD i d = v := by
  rw [List.getD_eq_getElem _ _ (by simpa using h)]
  exact List.getElem_set_self _

/-- List.set leaves every other position unchanged. -/
theorem getD_set_ne {β : Type} (l : List β) {i j : Nat} (v d : β) (h : i ≠ j) :
    (l.set i v).getD j d = l.getD j d := by
  simp [List.getD_eq_getElem?_getD, List.getElem?_set_ne h]

/-- Positions not written by writeFrame keep their previous contents. -/
theorem writeFrame_getD_not_mem {α : Type} (ps : List (Nat × P3 α)) (frame : List (P3 α))
    (j : Nat) (d : P3 α) (h : ∀ q ∈ ps, q.1 ≠ j) :
    (writeFrame frame ps).getD j d = frame.getD j d := by
  induction ps generalizing frame with
  | nil => rfl
  | cons q rest ih =>
    obtain ⟨i, p⟩ := q
    rw [writeFrame, ih (frame.set i p) (fun q hq => h q (List.mem_cons_of_mem _ hq))]
    exact getD_set_ne frame _ _ (h (i, p) (List.mem_cons_self _ _))

/-- After scattering src into frame at pairwise-distinct in-range indices, the
frame holds src k at position idx k, for every k. -/
theorem writeFrame_zip_getD {α : Type} (idx : List Nat) (src frame : List (P3 α))
    (k : Nat) (d : P3 α) (hnd : idx.Nodup) (hlen : idx.length = src.length)
    (hbd : ∀ i ∈ idx, i < frame.length) (hk : k < idx.length) :
    (writeFrame frame (idx.zip src)).getD (idx.getD k 0) d = src.getD k d := by
  induction idx generalizing src frame k with
  | nil => exact absurd hk (by simp)
  | cons i0 idxr ih =>
    match src with
    | [] => exact absurd hlen (by simp)
    | s0 :: srcr =>
      rw [List.zip_cons_cons, writeFrame]
      match k with
      | 0 =>
        rw [List.getD_cons_zero, List.getD_cons_zero]
        rw [writeFrame_getD_not_mem _ _ _ _ (fun q hq => by
          have hmem := (List.of_mem_zip hq).1
          intro he
          exact (List.nodup_cons.1 hnd).1 (he ▸ hmem))]
        exact getD_set_self frame i0 s0 d (hbd i0 (List.mem_cons_self _ _))
      | Nat.succ k' =>
        rw [List.getD_cons_succ, List.getD_cons_succ]
        exact ih srcr (frame.set i0 s0) k' (List.nodup_cons.1 hnd).2
          (by simpa using hlen)
          (fun i hi => by rw [List.length_set]; exact hbd i (List.mem_cons_of_mem _ hi))
          (by simpa using hk)

/-- mirrorFrame of a cons unfolds to the interleaved pair followed by the
rest. -/
theorem mirrorFrame_cons {α : Type} [Neg α] (p : P3 α) (rest : List (P3 α)) :
    mirrorFrame (p :: rest) = negFirst p :: p :: mirrorFrame rest := rfl

/-- mirrorKeypoints acts framewise (also at out-of-range positions, where both
sides give the empty frame). -/
theorem mirrorKeypoints_getD {α : Type} [Neg α] (kps : List (List (P3 α))) (a : Nat) :
    (mirrorKeypoints kps).getD a [] = mirrorFrame (kps.getD a []) := by
  induction kps generalizing a with
  | nil => cases a <;> rfl
  | cons fr rest ih =>
    match a with
    | 0 => rfl
    | Nat.succ a' => simpa [mirrorKeypoints] using ih a'

/-- Mirroring doubles the marker count of a frame. -/
theorem mirrorFrame_length {α : Type} [Neg α] (frame : List (P3 α)) :
    (mirrorFrame frame).length = 2 * frame.length := by
  induction frame with
  | nil => rfl
  | cons p rest ih => rw [mirrorFrame_cons]; simp [ih]; ring

/-- Even positions of a mirrored frame hold the negated copies. -/
theorem mirrorFrame_getD_even {α : Type} [Neg α] (frame : List (P3 α)) (i : Nat)
    (d : P3 α) (h : i < frame.length) :
    (mirrorFrame frame).getD (2 * i) d = negFirst (frame.getD i d) := by
  induction frame generalizing i with
  | nil => exact absurd h (by simp)
  | cons p rest ih =>
    match i with
    | 0 => rfl
    | Nat.succ i' =>
      have h2 : 2 * (i' + 1) = 2 * i' + 1 + 1 := by ring
      rw [mirrorFrame_cons, h2, List.getD_cons_succ, List.getD_cons_succ,
        List.getD_cons_succ]
      exact ih i' (by simpa using h)

/-- Odd positions of a mirrored frame hold the original points. -/
theorem mirrorFrame_getD_odd {α : Type} [Neg α] (frame : List (P3 α)) (i : Nat)
    (d : P3 α) (h : i < frame.length) :
    (mirrorFrame frame).getD (2 * i + 1) d = frame.getD i d := by
  induction frame generalizing i with
  | nil => exact absurd h (by simp)
  | cons p rest ih =>
    match i with
    | 0 => rfl
    | Nat.succ i' =>
      have h2 : 2 * (i' + 1) + 1 = 2 * i' + 1 + 1 + 1 := by ring
      rw [mirrorFrame_cons, h2, List.getD_cons_succ, List.getD_cons_succ,
        List.getD_cons_succ]
      exact ih i' (by simpa using h)

/-- Reading a row back as a triple recovers the point. -/
theorem toTriple_toRow {α : Type} (p : P3 α) : toTriple (toRow p) = some p := rfl

/-- Validating the rows of a list of triples recovers the triples. -/
theorem mapM_toTriple_toRow {α : Type} (pts : List (P3 α)) :
    (pts.map toRow).mapM toTriple = some pts := by
  induction pts with
  | nil => rfl
  | cons p rest ih =>
    simp only [List.map_cons, List.mapM_cons, toTriple_toRow, ih]
    rfl

/-- The element count of the rows of a list of triples. -/
theorem rowLenSum {α : Type} (pts : List (P3 α)) :
    ((pts.map toRow).map List.length).sum = 3 * pts.length := by
  induction pts with
  | nil => rfl
  | cons p rest ih =>
    simp only [List.map_cons, List.sum_cons, ih, List.length_cons]
    show (toRow p).length + 3 * rest.length = 3 * (rest.length + 1)
    simp only [toRow, List.length_cons, List.length_nil]
    ring

/-- validate_keypoints accepts a nonempty (1, n, 3) array and returns it
unchanged. -/
theorem validateKeypoints_toArr3_single {α : Type} (pts : List (P3 α)) (h : pts ≠ []) :
    validateKeypoints (toArr3 [pts]) = Except.ok [pts] := by
  match pts, h with
  | p0 :: rest, _ =>
    have hrep : toArr3 [p0 :: rest] = KParr.three [(p0 :: rest).map toRow] := rfl
    have hsize : kpSize (KParr.three [(p0 :: rest).map toRow]) = 3 * (p0 :: rest).length := by
      simp only [kpSize, List.map_cons, List.map_nil, List.sum_cons, List.sum_nil, add_zero]
      exact rowLenSum (p0 :: rest)
    have hdim : kpLastDim (KParr.three [(p0 :: rest).map toRow]) = 3 := by
      simp [kpLastDim, toRow]
    rw [hrep, validateKeypoints.eq_def]
    rw [if_neg (by rw [hsize]; simp), if_neg (by rw [hdim]; simp)]
    simp only [List.mapM_cons, List.mapM_nil, mapM_toTriple_toRow]
    rfl

/-- The broadcast-normalised source row equals the source itself whenever the
source marker count matches the index count. -/
theorem scatterRow_eq {α : Type} [Zero α] (idx : List Nat) (pts : List (P3 α))
    (hlen : pts.length = idx.length) :
    (if pts.length = 1 then
        List.replicate idx.length (pts.headD ((0 : α), (0 : α), (0 : α)))
      else pts) = pts := by
  by_cases h1 : pts.length = 1
  · obtain ⟨p, rfl⟩ := List.length_eq_one.1 h1
    rw [if_pos h1, ← hlen, h1]
    rfl
  · exact if_neg h1

/-- Scattering a one-frame source with matching marker count into a one-frame
destination succeeds and writes pointwise. -/
theorem scatterAssign_single {α : Type} [Zero α] (frame0 : List (P3 α))
    (idx : List Nat) (pts : List (P3 α)) (hlen : pts.length = idx.length) :
    scatterAssign [frame0] idx [pts] = Except.ok [writeFrame frame0 (idx.zip pts)] := by
  have h1 : ([pts] : List (List (P3 α))).length = ([frame0] : List (List (P3 α))).length
      ∨ ([pts] : List (List (P3 α))).length = 1 := Or.inr rfl
  have h2 : (([pts] : List (List (P3 α))).headD []).length = idx.length
      ∨ (([pts] : List (List (P3 α))).headD []).length = 1 := Or.inl hlen
  rw [scatterAssign, if_pos h1, if_pos h2]
  simp only [List.enum_cons, List.enumFrom_nil, List.map_cons, List.map_nil,
    List.length_cons, List.length_nil, List.headD_cons, List.getD_cons_zero,
    Except.ok.injEq, List.cons.injEq, and_true]
  by_cases hone : pts.length = 1
  · obtain ⟨p, rfl⟩ := List.length_eq_one.1 hone
    rw [if_pos hone, ← hlen, hone]
    rfl
  · simp [hone]

/-- Left multiplication by the identity matrix. -/
theorem id4_mul {α : Type} [CommRing α] (M : Mat4 α) : Mat4.mul id4 M = M := by
  cases M
  simp [Mat4.mul, id4]

/-- The zero translation is the identity matrix. -/
theorem translationM_zero {α : Type} [CommRing α] :
    translationM (0 : α) 0 = id4 := rfl

/-- Zero degrees is zero radians. -/
theorem deg2rad_zero : deg2rad 0 = 0 := by
  simp [deg2rad]

/-- Ninety degrees is a quarter turn in radians. -/
theorem deg2rad_ninety : deg2rad 90 = Real.pi / 2 := by
  rw [deg2rad]
  ring

/-- The x rotation by zero radians is the identity matrix. -/
theorem rotXM_zero : rotXM 0 = id4 := by
  simp [rotXM, id4]

/-- C1: in the two-marker scenario of the specification (column order [R, L],
moving markers [L, R], right subset of size one), update_keypoints called with
the single right-side point (1,0,0) does NOT mirror: validate_keypoints never
calls mirror_keypoints, so the (1,1,3) input is numpy-broadcast across both
moving-marker slots and the canonical gathered pose is
[(1,0,0), (1,0,0)], not the mirrored [(-1,0,0), (1,0,0)] required by the
claim. -/
theorem C1_update_one_sided_not_mirrored :
    (updateKeypoints (some (KParr.two [[1, 0, 0]])) stateLR).map markersView
      = Except.ok [[((1 : ℤ), 0, 0), ((1 : ℤ), 0, 0)]] ∧
    (updateKeypoints (some (KParr.two [[1, 0, 0]])) stateLR).map markersView
      ≠ Except.ok [[((-1 : ℤ), 0, 0), ((1 : ℤ), 0, 0)]] := by
  have h1 : (updateKeypoints (some (KParr.two [[1, 0, 0]])) stateLR).map markersView
      = Except.ok [[((1 : ℤ), 0, 0), ((1 : ℤ), 0, 0)]] := rfl
  refine ⟨h1, ?_⟩
  rw [h1]
  intro hcontra
  have h2 := Except.ok.inj hcontra
  simp at h2

/-- C2 counterexample: after reset_transformation the working buffer is the
very same heap cell as the baseline buffer (not a fresh copy), and an
in-place mutation of the working buffer changes what the baseline reads. -/
theorem C2_reset_alias_counterexample :
    (resetTransformationR refStateABC).cur = (resetTransformationR refStateABC).untr ∧
    readBuf (writeCur [[((5 : ℤ), 5, 5)]] (resetTransformationR refStateABC))
        (resetTransformationR refStateABC).untr
      ≠ readBuf refStateABC refStateABC.untr := by
  exact ⟨rfl, by decide⟩

/-- C2 amended: restore_keypoints_to_average allocates independent copies of
the reference buffer for the working and baseline fields, but
reset_transformation aliases the working buffer to the baseline buffer, so
after a reset an in-place mutation of the working pose is visible through the
baseline pose. -/
theorem C2_reset_aliases_restore_copies {α : Type} [CommRing α] (s : RefState α) :
    (resetTransformationR s).cur = (resetTransformationR s).untr ∧
    (∀ v : List (List (P3 α)), s.untr < s.heap.length →
      readBuf (writeCur v (resetTransformationR s)) (resetTransformationR s).untr = v) ∧
    (restoreKeypointsToAverageR s).cur ≠ (restoreKeypointsToAverageR s).untr ∧
    readBuf (restoreKeypointsToAverageR s) (restoreKeypointsToAverageR s).cur
      = readBuf s s.dflt ∧
    readBuf (restoreKeypointsToAverageR s) (restoreKeypointsToAverageR s).untr
      = readBuf s s.dflt ∧
    (s.dflt < s.heap.length →
      (restoreKeypointsToAverageR s).cur ≠ s.dflt ∧
      (restoreKeypointsToAverageR s).untr ≠ s.dflt) := by
  refine ⟨rfl, ?_, ?_, ?_, ?_, ?_⟩
  · intro v hv
    simp only [writeCur, resetTransformationR, readBuf]
    exact getD_set_self _ _ _ _ hv
  · simp only [restoreKeypointsToAverageR, List.length_append, List.length_cons,
      List.length_nil]
    omega
  · simp only [restoreKeypointsToAverageR, readBuf]
    rw [List.getD_append _ _ _ _ (by simp), List.getD_append_right _ _ _ _ (le_refl _)]
    simp
  · simp only [restoreKeypointsToAverageR, readBuf]
    rw [List.getD_append_right _ _ _ _ (le_refl _)]
    simp
  · intro h
    constructor <;>
      · simp only [restoreKeypointsToAverageR, List.length_append, List.length_cons,
          List.length_nil]
        omega

/-- C2 witness: the amended statement applied to the concrete three-buffer
state. -/
theorem C2_reset_aliases_restore_copies_witness :
    (refStateABC.untr < refStateABC.heap.length
      ∧ refStateABC.dflt < refStateABC.heap.length) ∧
    readBuf (writeCur [[((7 : ℤ), 7, 7)]] (resetTransformationR refStateABC))
        (resetTransformationR refStateABC).untr = [[((7 : ℤ), 7, 7)]] ∧
    (restoreKeypointsToAverageR refStateABC).cur ≠ refStateABC.dflt ∧
    (restoreKeypointsToAverageR refStateABC).untr ≠ refStateABC.dflt :=
  ⟨⟨by decide, by decide⟩,
   (C2_reset_aliases_restore_copies refStateABC).2.1 _ (by decide),
   ((C2_reset_aliases_restore_copies refStateABC).2.2.2.2.2 (by decide)).1,
   ((C2_reset_aliases_restore_copies refStateABC).2.2.2.2.2 (by decide)).2⟩

/-- C6: calling update_keypoints with no value is definitionally the call to
restore_keypoints_to_average, and after it the working pose and the baseline
pose both hold the reference pose and the origin is zero, whatever the prior
history baked into the state. -/
theorem C6_update_none_equiv_restore {α : Type} [CommRing α] (s : AnimalState α) :
    updateKeypoints none s = Except.ok (restoreKeypointsToAverage s) ∧
    (restoreKeypointsToAverage s).current_shape = s.default_shape ∧
    (restoreKeypointsToAverage s).untransformed_shape = s.default_shape ∧
    (restoreKeypointsToAverage s).origin = ((0 : α), 0, 0) :=
  ⟨rfl, rfl, rfl, rfl⟩

/-- C9: an empty input or a trailing dimension other than 3 makes
update_keypoints fail inside validate_keypoints, which runs strictly before
the scatter write, so the observable state after the failed call is exactly
the state before it. -/
theorem C9_validation_failure_atomic {α : Type} [CommRing α] (s : AnimalState α)
    (k : KParr α) (h : kpSize k = 0 ∨ kpLastDim k ≠ 3) :
    (∃ e, updateKeypoints (some k) s = Except.error e) ∧
    updateKeypointsRun (some k) s = s := by
  have hv : ∃ e, validateKeypoints k = Except.error e := by
    rcases h with h0 | h3
    · exact ⟨_, by rw [validateKeypoints.eq_def, if_pos h0]⟩
    · by_cases h0 : kpSize k = 0
      · exact ⟨_, by rw [validateKeypoints.eq_def, if_pos h0]⟩
      · exact ⟨_, by rw [validateKeypoints.eq_def, if_neg h0, if_pos h3]⟩
  obtain ⟨e, he⟩ := hv
  refine ⟨⟨e, ?_⟩, ?_⟩
  · simp [updateKeypoints, he]
  · simp [updateKeypointsRun, updateKeypoints, he]

/-- C9 witness: the empty two-dimensional array triggers the failure and
leaves the concrete two-marker state untouched. -/
theorem C9_validation_failure_atomic_witness :
    (kpSize (KParr.two ([] : List (List ℤ))) = 0
      ∨ kpLastDim (KParr.two ([] : List (List ℤ))) ≠ 3) ∧
    updateKeypointsRun (some (KParr.two ([] : List (List ℤ)))) stateTwoMarkers
      = stateTwoMarkers :=
  ⟨Or.inl rfl,
   (C9_validation_failure_atomic stateTwoMarkers (KParr.two []) (Or.inl rfl)).2⟩

/-- C3: for any column permutation containing the requested names,
get_marker_indices returns exactly one index per requested name, ordered by
the requested subset, and gathering the columns at those indices recovers
each marker's true coordinates (the value the column list assigns to its
name), independent of the permutation. -/
theorem C3_resolver_order_and_permutation_correct {β : Type} (f : String → β)
    (dflt : β) (subset perm : List String) (h : ∀ n ∈ subset, n ∈ perm) :
    getMarkerIndices subset perm = Except.ok (subset.map (fun n => perm.indexOf n)) ∧
    (subset.map (fun n => perm.indexOf n)).map (fun i => (perm.map f).getD i dflt)
      = subset.map f := by
  induction subset with
  | nil => exact ⟨rfl, rfl⟩
  | cons n rest ih =>
    have hmem : n ∈ perm := h n (List.mem_cons_self _ _)
    obtain ⟨ih1, ih2⟩ := ih (fun x hx => h x (List.mem_cons_of_mem _ hx))
    constructor
    · simp only [getMarkerIndices]
      rw [if_pos hmem, ih1, List.map_cons]
    · rw [List.map_cons, List.map_cons, List.map_cons, ih2]
      have hlt : perm.indexOf n < perm.length := List.indexOf_lt_length.2 hmem
      have hlt2 : perm.indexOf n < (perm.map f).length := by simpa using hlt
      rw [List.getD_eq_getElem _ _ hlt2, List.getElem_map, List.getElem_indexOf hlt]

/-- C3 witness: the two-marker scenario, subset [L, R] against column order
[R, L], resolves to [1, 0] and gathers the true coordinates. -/
theorem C3_resolver_order_and_permutation_correct_witness :
    (∀ n ∈ ["L", "R"], n ∈ ["R", "L"]) ∧
    getMarkerIndices ["L", "R"] ["R", "L"]
      = Except.ok (["L", "R"].map (fun n => ["R", "L"].indexOf n)) ∧
    (["L", "R"].map (fun n => ["R", "L"].indexOf n)).map
        (fun i => ((["R", "L"].map (fun n => if n = "L" then ((1 : ℤ), 0, 0)
          else (2, 0, 0))).getD i (0, 0, 0)))
      = ["L", "R"].map (fun n => if n = "L" then ((1 : ℤ), 0, 0) else (2, 0, 0)) :=
  ⟨by simp,
   C3_resolver_order_and_permutation_correct
     (fun n => if n = "L" then ((1 : ℤ), 0, 0) else (2, 0, 0)) (0, 0, 0)
     ["L", "R"] ["R", "L"] (by simp)⟩

/-- C4: mirroring a (frames, n, 3) array yields frames of length 2n in which
position 2i holds point i with its first coordinate negated and position
2i+1 holds point i unchanged: the interleave order is mirrored, original,
mirrored, original, … -/
theorem C4_mirror_interleave {α : Type} [Neg α] (kps : List (List (P3 α))) (d : P3 α) :
    (mirrorKeypoints kps).length = kps.length ∧
    ∀ a, ((mirrorKeypoints kps).getD a []).length = 2 * (kps.getD a []).length ∧
      ∀ i, i < (kps.getD a []).length →
        ((mirrorKeypoints kps).getD a []).getD (2 * i) d
          = negFirst ((kps.getD a []).getD i d) ∧
        ((mirrorKeypoints kps).getD a []).getD (2 * i + 1) d
          = (kps.getD a []).getD i d := by
  refine ⟨by simp [mirrorKeypoints], fun a => ?_⟩
  rw [mirrorKeypoints_getD]
  exact ⟨mirrorFrame_length _,
    fun i hi => ⟨mirrorFrame_getD_even _ i d hi, mirrorFrame_getD_odd _ i d hi⟩⟩

/-- C4 witness: the one-frame two-point array evaluated at pair index 1. -/
theorem C4_mirror_interleave_witness :
    1 < ([[((1 : ℤ), 2, 3), (4, 5, 6)]].getD 0 []).length ∧
    ((mirrorKeypoints [[((1 : ℤ), 2, 3), (4, 5, 6)]]).getD 0 []).getD (2 * 1) (0, 0, 0)
      = negFirst (([[((1 : ℤ), 2, 3), (4, 5, 6)]].getD 0 []).getD 1 (0, 0, 0)) ∧
    ((mirrorKeypoints [[((1 : ℤ), 2, 3), (4, 5, 6)]]).getD 0 []).getD (2 * 1 + 1) (0, 0, 0)
      = ([[((1 : ℤ), 2, 3), (4, 5, 6)]].getD 0 []).getD 1 (0, 0, 0) :=
  ⟨by decide,
   (((C4_mirror_interleave [[((1 : ℤ), 2, 3), (4, 5, 6)]] (0, 0, 0)).2 0).2 1
     (by decide)).1,
   (((C4_mirror_interleave [[((1 : ℤ), 2, 3), (4, 5, 6)]] (0, 0, 0)).2 0).2 1
     (by decide)).2⟩

/-- C7 counterexample: a (2, 2, 3) input — two frames, full moving-marker
count, trailing dimension 3 — is rejected by the scatter write with a numpy
broadcast error, because the working pose holds a single frame; so update
does not succeed for every frames >= 1. -/
theorem C7_multiframe_update_rejected :
    updateKeypoints (some twoFrameInput) stateTwoMarkers
      = Except.error "could not broadcast input array (frame axis)" := rfl

/-- C7 amended: a (1, marker, 3) input with marker equal to the full
moving-marker count succeeds, and the validated points land at the
moving-marker indices of the single-frame working pose (after which the
accumulated transform is applied); inputs with two or more frames are
rejected by broadcasting. -/
theorem C7_single_frame_update {α : Type} [CommRing α] (s : AnimalState α)
    (frame0 pts : List (P3 α)) (d : P3 α)
    (hcur : s.current_shape = [frame0])
    (hne : pts ≠ [])
    (hlen : pts.length = s.marker_index.length)
    (hnd : s.marker_index.Nodup)
    (hbd : ∀ i ∈ s.marker_index, i < frame0.length) :
    ∃ t, updateKeypoints (some (toArr3 [pts])) s = Except.ok t ∧
      t.untransformed_shape = [writeFrame frame0 (s.marker_index.zip pts)] ∧
      t.current_shape
        = [(writeFrame frame0 (s.marker_index.zip pts)).map
            (applyPoint s.transformation_matrix)] ∧
      ∀ k, k < s.marker_index.length →
        (writeFrame frame0 (s.marker_index.zip pts)).getD (s.marker_index.getD k 0) d
          = pts.getD k d := by
  have hv := validateKeypoints_toArr3_single pts hne
  have hs := scatterAssign_single frame0 s.marker_index pts hlen
  refine ⟨applyTransformation
    { s with
      current_shape := [writeFrame frame0 (s.marker_index.zip pts)]
      untransformed_shape := [writeFrame frame0 (s.marker_index.zip pts)] },
    ?_, rfl, ?_, ?_⟩
  · simp only [updateKeypoints, hv, hcur, hs]
  · simp [applyTransformation]
  · intro k hk
    exact writeFrame_zip_getD s.marker_index pts frame0 k d hnd hlen.symm hbd hk

/-- C7 witness: the amended statement applied to the concrete two-marker
state and a (1, 2, 3) input. -/
theorem C7_single_frame_update_witness :
    (([((1 : ℤ), 1, 1), (2, 2, 2)] : List (P3 ℤ)) ≠ []
      ∧ ([((1 : ℤ), 1, 1), (2, 2, 2)] : List (P3 ℤ)).length
          = stateTwoMarkers.marker_index.length
      ∧ stateTwoMarkers.marker_index.Nodup
      ∧ ∀ i ∈ stateTwoMarkers.marker_index,
          i < ([((0 : ℤ), 0, 0), (0, 0, 0)] : List (P3 ℤ)).length) ∧
    ∃ t, updateKeypoints (some (toArr3 [[((1 : ℤ), 1, 1), (2, 2, 2)]]))
        stateTwoMarkers = Except.ok t ∧
      t.untransformed_shape
        = [writeFrame [((0 : ℤ), 0, 0), (0, 0, 0)]
            (stateTwoMarkers.marker_index.zip [((1 : ℤ), 1, 1), (2, 2, 2)])] ∧
      t.current_shape
        = [(writeFrame [((0 : ℤ), 0, 0), (0, 0, 0)]
            (stateTwoMarkers.marker_index.zip [((1 : ℤ), 1, 1), (2, 2, 2)])).map
              (applyPoint stateTwoMarkers.transformation_matrix)] ∧
      ∀ k, k < stateTwoMarkers.marker_index.length →
        (writeFrame [((0 : ℤ), 0, 0), (0, 0, 0)]
            (stateTwoMarkers.marker_index.zip [((1 : ℤ), 1, 1), (2, 2, 2)])).getD
            (stateTwoMarkers.marker_index.getD k 0) ((0 : ℤ), 0, 0)
          = ([((1 : ℤ), 1, 1), (2, 2, 2)] : List (P3 ℤ)).getD k ((0 : ℤ), 0, 0) :=
  ⟨⟨by decide, by decide, by decide, by decide⟩,
   C7_single_frame_update stateTwoMarkers [((0 : ℤ), 0, 0), (0, 0, 0)]
     [((1 : ℤ), 1, 1), (2, 2, 2)] ((0 : ℤ), 0, 0) rfl (by decide) (by decide)
     (by decide) (by decide)⟩

/-- C8: whenever some requested marker name is absent from the supplied
column order, get_marker_indices fails with an error message naming a
missing marker, and no index list is returned. -/
theorem C8_missing_marker_error (subset csv : List String)
    (h : ∃ n, n ∈ subset ∧ n ∉ csv) :
    ∃ n, n ∈ subset ∧ n ∉ csv ∧
      getMarkerIndices subset csv = Except.error (markerNotFoundMsg n) := by
  induction subset with
  | nil =>
    obtain ⟨n, hn, _⟩ := h
    exact absurd hn (List.not_mem_nil n)
  | cons name rest ih =>
    by_cases hm : name ∈ csv
    · obtain ⟨n, hn, hnc⟩ := h
      have hnr : n ∈ rest := by
        rcases List.mem_cons.1 hn with rfl | hr
        · exact absurd hm hnc
        · exact hr
      obtain ⟨n', h1, h2, h3⟩ := ih ⟨n, hnr, hnc⟩
      refine ⟨n', List.mem_cons_of_mem _ h1, h2, ?_⟩
      simp only [getMarkerIndices]
      rw [if_pos hm, h3]
    · refine ⟨name, List.mem_cons_self _ _, hm, ?_⟩
      simp only [getMarkerIndices]
      rw [if_neg hm]

/-- C8 witness: requesting the marker "hood" against an empty column order. -/
theorem C8_missing_marker_error_witness :
    (∃ n, n ∈ ["hood"] ∧ n ∉ ([] : List String)) ∧
    ∃ n, n ∈ ["hood"] ∧ n ∉ ([] : List String) ∧
      getMarkerIndices ["hood"] [] = Except.error (markerNotFoundMsg n) :=
  ⟨⟨"hood", by simp, by simp⟩,
   C8_missing_marker_error ["hood"] [] ⟨"hood", by simp, by simp⟩⟩

/-- C10: restore_keypoints_to_average rewrites only the working pose, the
baseline pose and the origin; the accumulated transformation matrix (and the
marker indices and reference pose) survive unchanged, so a following
update_keypoints with fresh points pushes them through that stale matrix. -/
theorem C10_restore_preserves_transformation {α : Type} [CommRing α]
    (s : AnimalState α) :
    (restoreKeypointsToAverage s).transformation_matrix = s.transformation_matrix ∧
    (restoreKeypointsToAverage s).marker_index = s.marker_index ∧
    (restoreKeypointsToAverage s).default_shape = s.default_shape ∧
    (restoreKeypointsToAverage s).current_shape = s.default_shape ∧
    (restoreKeypointsToAverage s).untransformed_shape = s.default_shape ∧
    (restoreKeypointsToAverage s).origin = ((0 : α), 0, 0) ∧
    ∀ kps t, updateKeypoints (some kps) (restoreKeypointsToAverage s) = Except.ok t →
      t.current_shape = t.untransformed_shape.map
        (fun frame => frame.map (applyPoint s.transformation_matrix)) := by
  refine ⟨rfl, rfl, rfl, rfl, rfl, rfl, ?_⟩
  intro kps t h
  cases hv : validateKeypoints kps with
  | error e => simp [updateKeypoints, hv] at h
  | ok v =>
    cases hs : scatterAssign (restoreKeypointsToAverage s).current_shape
        (restoreKeypointsToAverage s).marker_index v with
    | error e => simp [updateKeypoints, hv, hs] at h
    | ok cur2 =>
      simp only [updateKeypoints, hv, hs, Except.ok.injEq] at h
      subst h
      simp [applyTransformation, restoreKeypointsToAverage]

/-- C10 witness: after a restore carrying the stale translation staleM, an
update with a fresh point leaves a working pose equal to the stale matrix
applied to the new baseline. -/
theorem C10_restore_preserves_transformation_witness :
    (updateKeypointsRun (some (KParr.two [[(7 : ℤ), 8, 9]]))
        (restoreKeypointsToAverage stateStale)).current_shape
      = (updateKeypointsRun (some (KParr.two [[(7 : ℤ), 8, 9]]))
          (restoreKeypointsToAverage stateStale)).untransformed_shape.map
          (fun frame => frame.map (applyPoint stateStale.transformation_matrix)) :=
  (C10_restore_preserves_transformation stateStale).2.2.2.2.2.2
    (KParr.two [[(7 : ℤ), 8, 9]]) _ rfl

/-- C5: transform_keypoints is the fixed episode reset, translate, pitch
about x, yaw about z, apply; with pitch and both translations zero and yaw
90 degrees it maps the point (1,0,0) to (0,1,0), fixing the right-handed
sign convention of the z rotation applied through the transposed matrix. -/
theorem C5_yaw90_maps_unitX_to_unitY :
    (transformKeypoints stateUnitX 0 0 0 90).current_shape = [[((0 : ℝ), 1, 0)]] := by
  simp only [transformKeypoints, resetTransformation, updateTranslation,
    updateRotation, applyTransformation, rotMat, stateUnitX]
  rw [translationM_zero, deg2rad_zero, rotXM_zero, deg2rad_ninety,
    id4_mul, id4_mul, id4_mul]
  simp [applyPoint, rotZM, Real.cos_pi_div_two, Real.sin_pi_div_two]

end MorphingBirds
